import Mathlib

/-!
Verification development for the retro CRT pixel-display engine and the Pong
game layer built on it (`src/pixel-display.js`, `src/pong.js`, constants from
`src/constants.js`).

The grid of pixel cells is embedded as a function `ℤ → ℤ → Cell` indexed
row-first (`pixels y x` mirrors `this.pixels[y][x]`); mutation of a cell
becomes a functional update.  JavaScript numbers (millisecond timestamps,
coordinates, brightness) are embedded as `ℚ` for the pixel engine; the
degauss controller, whose strength uses `Math.pow(x, 1.5)`, is embedded over
`ℝ`.  Canvas/geometry fields of the `PixelDisplay` constructor (display
width/height, gap sizes, colors, the canvas itself) are render-only and are
not part of any modeled operation, so they are omitted from the state.
-/

/-- One pixel cell: `{ state, onTimestamp, offTimestamp }` exactly as created
in the `PixelDisplay` constructor (pixel-display.js line 48). -/
structure Cell where
  state : Bool
  onTimestamp : ℚ
  offTimestamp : ℚ
deriving DecidableEq, Repr

/-- The logical state of a `PixelDisplay`: emulated grid dimensions, the two
fade durations (`this.fadeInTime`, `this.fadeOutTime`), and the cell grid
`this.pixels` (row-first, `pixels y x` is `this.pixels[y][x]`). -/
structure PixelDisplay where
  emulatedWidth : ℕ
  emulatedHeight : ℕ
  fadeInTime : ℚ
  fadeOutTime : ℚ
  pixels : ℤ → ℤ → Cell

/-- `CRT_FADE_IN_MS` from constants.js. -/
def CRT_FADE_IN_MS : ℚ := 50

/-- `CRT_FADE_OUT_MS` from constants.js. -/
def CRT_FADE_OUT_MS : ℚ := 200

/-- The bounds check `x >= 0 && x < this.emulatedWidth && y >= 0 && y < this.emulatedHeight`
shared by `setPixel` (line 83) and `getPixel` (line 104). -/
def inBounds (d : PixelDisplay) (x y : ℤ) : Prop :=
  0 ≤ x ∧ x < (d.emulatedWidth : ℤ) ∧ 0 ≤ y ∧ y < (d.emulatedHeight : ℤ)

instance (d : PixelDisplay) (x y : ℤ) : Decidable (inBounds d x y) := by
  unfold inBounds
  infer_instance

/-- `PixelDisplay.setPixel(x, y, state)` (pixel-display.js lines 82–95).
`now` is the value of `this.getTime()` at the call.  In bounds and with a
state change, the written cell records the transition timestamp; otherwise
the display is unchanged. -/
def setPixel (d : PixelDisplay) (x y : ℤ) (state : Bool) (now : ℚ) : PixelDisplay :=
  if inBounds d x y then
    let pixel := d.pixels y x
    if pixel.state ≠ state then
      let updated :=
        if state then { pixel with state := state, onTimestamp := now }
        else { pixel with state := state, offTimestamp := now }
      { d with pixels := fun py px => if py = y ∧ px = x then updated else d.pixels py px }
    else d
  else d

/-- `PixelDisplay.getPixel(x, y)` (pixel-display.js lines 103–108). -/
def getPixel (d : PixelDisplay) (x y : ℤ) : Bool :=
  if inBounds d x y then (d.pixels y x).state else false

/-- A freshly constructed display: every cell
`{ state: false, onTimestamp: 0, offTimestamp: 0 }` (constructor lines 44–54),
fade times `CRT_FADE_IN_MS`/`CRT_FADE_OUT_MS`. -/
def mkDisplay (w h : ℕ) : PixelDisplay :=
  { emulatedWidth := w
    emulatedHeight := h
    fadeInTime := CRT_FADE_IN_MS
    fadeOutTime := CRT_FADE_OUT_MS
    pixels := fun _ _ => { state := false, onTimestamp := 0, offTimestamp := 0 } }

/-- When the cell already holds the written state, `setPixel` is a no-op
(the `pixel.state !== state` guard fails); also a no-op out of bounds. -/
theorem setPixel_same (d : PixelDisplay) (x y : ℤ) (state : Bool) (now : ℚ)
    (h : (d.pixels y x).state = state) : setPixel d x y state now = d := by
  unfold setPixel
  split
  · simp [h]
  · rfl

/-- After an in-bounds `setPixel(x, y, true)`, the written cell's state is true. -/
theorem setPixel_state_true (d : PixelDisplay) (x y : ℤ) (now : ℚ)
    (h : inBounds d x y) : ((setPixel d x y true now).pixels y x).state = true := by
  unfold setPixel
  rw [if_pos h]
  by_cases hs : (d.pixels y x).state = true
  · simp [hs]
  · simp [hs]

/-- C7: for every coordinate outside the emulated grid, `getPixel` returns
false (total function, no exception) and `setPixel` leaves the display — in
particular every cell of the grid — unchanged (silent no-op). -/
theorem outOfBounds_noop (d : PixelDisplay) (x y : ℤ) (state : Bool) (now : ℚ)
    (h : ¬ inBounds d x y) :
    getPixel d x y = false ∧ setPixel d x y state now = d := by
  constructor
  · unfold getPixel
    rw [if_neg h]
  · unfold setPixel
    rw [if_neg h]

/-- Witness for C7 at a concrete out-of-bounds coordinate on a 10×10 display. -/
theorem outOfBounds_noop_witness :
    ¬ inBounds (mkDisplay 10 10) (-1) 3 ∧
    getPixel (mkDisplay 10 10) (-1) 3 = false ∧
    setPixel (mkDisplay 10 10) (-1) 3 true 5 = mkDisplay 10 10 := by
  refine ⟨by decide, ?_⟩
  exact outOfBounds_noop (mkDisplay 10 10) (-1) 3 true 5 (by decide)

/-- C8: writing a state the in-bounds cell already holds changes nothing
(state and both timestamps are untouched, the whole display is unchanged);
consequently a second consecutive `setPixel(x, y, true)` is a timing no-op,
whatever time it happens at. -/
theorem setPixel_idempotent (d : PixelDisplay) (x y : ℤ) (state : Bool) (now1 now2 : ℚ)
    (h : inBounds d x y) :
    ((d.pixels y x).state = state → setPixel d x y state now1 = d) ∧
    setPixel (setPixel d x y true now1) x y true now2 = setPixel d x y true now1 := by
  constructor
  · intro hs
    exact setPixel_same d x y state now1 hs
  · exact setPixel_same _ x y true now2 (setPixel_state_true d x y now1 h)

/-- Witness for C8 at a concrete in-bounds cell of a fresh 10×10 display. -/
theorem setPixel_idempotent_witness :
    inBounds (mkDisplay 10 10) 3 3 ∧
    (((mkDisplay 10 10).pixels 3 3).state = false → setPixel (mkDisplay 10 10) 3 3 false 5 = mkDisplay 10 10) ∧
    setPixel (setPixel (mkDisplay 10 10) 3 3 true 5) 3 3 true 9 = setPixel (mkDisplay 10 10) 3 3 true 5 := by
  refine ⟨by decide, ?_⟩
  exact setPixel_idempotent (mkDisplay 10 10) 3 3 false 5 9 (by decide)

/-- The fade-in part of `PixelDisplay.calculateBrightness`
(pixel-display.js lines 342–356): nonzero only when `onTimestamp > 0` and
the pixel is currently ON; linear ramp `onElapsed / fadeInTime`, clamped to
1 once `onElapsed ≥ fadeInTime`. -/
def fadeInBrightness (d : PixelDisplay) (pixel : Cell) (currentTime : ℚ) : ℚ :=
  if pixel.onTimestamp > 0 then
    let onElapsed := currentTime - pixel.onTimestamp
    if pixel.state then
      if onElapsed < d.fadeInTime then onElapsed / d.fadeInTime else 1
    else 0
  else 0

/-- The fade-out part of `PixelDisplay.calculateBrightness`
(pixel-display.js lines 358–376): when `offTimestamp > 0` and
`offElapsed < fadeOutTime`, the decay `(1 - offElapsed/fadeOutTime)^6` —
computed by the source in both the `!pixel.state` and the `pixel.state`
branch (the ON branch's missing `else` leaves the initial 0). -/
def fadeOutBrightness (d : PixelDisplay) (pixel : Cell) (currentTime : ℚ) : ℚ :=
  if pixel.offTimestamp > 0 then
    let offElapsed := currentTime - pixel.offTimestamp
    if pixel.state = false then
      if offElapsed < d.fadeOutTime then (1 - offElapsed / d.fadeOutTime) ^ 6 else 0
    else
      if offElapsed < d.fadeOutTime then (1 - offElapsed / d.fadeOutTime) ^ 6 else 0
  else 0

/-- `PixelDisplay.calculateBrightness(pixel, currentTime)`
(pixel-display.js lines 341–380): `min(1.0, max(fadeIn, fadeOut))`. -/
def calculateBrightness (d : PixelDisplay) (pixel : Cell) (currentTime : ℚ) : ℚ :=
  min 1 (max (fadeInBrightness d pixel currentTime) (fadeOutBrightness d pixel currentTime))

/-- `PixelDisplay.clear()` (pixel-display.js lines 319–333), with `now` the
value of `this.getTime()`.  Every in-bounds cell is forced OFF; a cell that
was ON gets `offTimestamp = now`, a cell already OFF gets the backdated
`alreadyFaded = now - fadeOutTime - 1`.  The double loop over
`[0,height)×[0,width)` is embedded as a pointwise functional update. -/
def clear (d : PixelDisplay) (now : ℚ) : PixelDisplay :=
  let alreadyFaded := now - d.fadeOutTime - 1
  { d with pixels := fun py px =>
      if inBounds d px py then
        let p := d.pixels py px
        if p.state then { p with offTimestamp := now, state := false }
        else { p with offTimestamp := alreadyFaded, state := false }
      else d.pixels py px }

/-- Membership of `(px, py)` in the clamped rectangle iterated by
`PixelDisplay.clearRect` (pixel-display.js lines 299–305):
`x0 = max(0, ⌊x⌋)`, `y0 = max(0, ⌊y⌋)`,
`x1 = min(emulatedWidth, x0 + max(0, ⌊w⌋))`,
`y1 = min(emulatedHeight, y0 + max(0, ⌊h⌋))`, and the loops run
`py ∈ [y0, y1)`, `px ∈ [x0, x1)`. -/
def insideClearRect (d : PixelDisplay) (x y w h : ℚ) (px py : ℤ) : Prop :=
  max 0 ⌊x⌋ ≤ px ∧ px < min (d.emulatedWidth : ℤ) (max 0 ⌊x⌋ + max 0 ⌊w⌋) ∧
  max 0 ⌊y⌋ ≤ py ∧ py < min (d.emulatedHeight : ℤ) (max 0 ⌊y⌋ + max 0 ⌊h⌋)

instance (d : PixelDisplay) (x y w h : ℚ) (px py : ℤ) :
    Decidable (insideClearRect d x y w h px py) := by
  unfold insideClearRect
  infer_instance

/-- `PixelDisplay.clearRect(x, y, w, h, options)` (pixel-display.js lines
297–311), with `now` the value of `this.getTime()` and `preserve` the
optional per-pixel predicate (absent predicate = `fun _ _ => false`).  Every
iterated, non-preserved cell gets `state = false` and `offTimestamp = now`
— unconditionally, with no backdating branch for already-OFF cells. -/
def clearRect (d : PixelDisplay) (x y w h : ℚ) (preserve : ℤ → ℤ → Bool) (now : ℚ) :
    PixelDisplay :=
  { d with pixels := fun py px =>
      if insideClearRect d x y w h px py ∧ preserve px py = false then
        { d.pixels py px with state := false, offTimestamp := now }
      else d.pixels py px }

/-- A pixel that is currently OFF contributes no fade-in brightness
(the `if (pixel.state)` guard in the fade-in block fails). -/
theorem fadeInBrightness_off (d : PixelDisplay) (p : Cell) (now : ℚ)
    (h : p.state = false) : fadeInBrightness d p now = 0 := by
  simp [fadeInBrightness, h]

/-- A pixel whose `offTimestamp` is not positive (sentinel: never turned off)
contributes no fade-out brightness. -/
theorem fadeOutBrightness_nonpos (d : PixelDisplay) (p : Cell) (now : ℚ)
    (h : p.offTimestamp ≤ 0) : fadeOutBrightness d p now = 0 := by
  simp only [fadeOutBrightness]
  rw [if_neg (not_lt.mpr h)]

/-- A pixel whose fade-out window has fully elapsed contributes no fade-out
brightness (both state branches take their `offElapsed < fadeOutTime` test). -/
theorem fadeOutBrightness_stale (d : PixelDisplay) (p : Cell) (now : ℚ)
    (h : d.fadeOutTime ≤ now - p.offTimestamp) : fadeOutBrightness d p now = 0 := by
  have hlt : ¬ (now - p.offTimestamp < d.fadeOutTime) := not_lt.mpr h
  simp only [fadeOutBrightness]
  split_ifs <;> simp_all

/-- C4: a cell that is OFF before `clear()` is stamped with the backdated
`offTimestamp = now - fadeOutTime - 1`, so `calculateBrightness` at the same
`now` is exactly 0 — already-off cells do not flash. -/
theorem clear_then_brightness_zero (d : PixelDisplay) (now : ℚ) (x y : ℤ)
    (hin : inBounds d x y) (hoff : (d.pixels y x).state = false) :
    calculateBrightness d ((clear d now).pixels y x) now = 0 := by
  have hcell : (clear d now).pixels y x =
      { d.pixels y x with offTimestamp := now - d.fadeOutTime - 1, state := false } := by
    simp only [clear]
    rw [if_pos hin, if_neg]
    simp [hoff]
  rw [hcell]
  unfold calculateBrightness
  rw [fadeInBrightness_off _ _ _ rfl,
      fadeOutBrightness_stale _ _ _ (by change d.fadeOutTime ≤ now - (now - d.fadeOutTime - 1); linarith)]
  norm_num

/-- Witness for C4 on a fresh 10×10 display at cell (2,2), cleared at t=1000. -/
theorem clear_then_brightness_zero_witness :
    inBounds (mkDisplay 10 10) 2 2 ∧
    ((mkDisplay 10 10).pixels 2 2).state = false ∧
    calculateBrightness (mkDisplay 10 10) ((clear (mkDisplay 10 10) 1000).pixels 2 2) 1000 = 0 := by
  refine ⟨by decide, rfl, ?_⟩
  exact clear_then_brightness_zero (mkDisplay 10 10) 1000 2 2 (by decide) rfl

/-- C3: within the fade-out window (`offTimestamp > 0`,
`now - offTimestamp < fadeOutTime`) the fade-out component is
`(1 - offElapsed/fadeOutTime)^6` regardless of the pixel's current state,
and the result is `min(1, max(fadeIn, fadeOut))`; concretely, a pixel set ON
at t=0 and OFF at t=100 has brightness `0.5^6 = 0.015625` at t=200. -/
theorem calculateBrightness_fadeOut_window :
    (∀ (d : PixelDisplay) (p : Cell) (now : ℚ),
        0 < p.offTimestamp → now - p.offTimestamp < d.fadeOutTime →
        calculateBrightness d p now =
          min 1 (max (fadeInBrightness d p now)
            ((1 - (now - p.offTimestamp) / d.fadeOutTime) ^ 6))) ∧
    calculateBrightness (mkDisplay 10 10)
        ((setPixel (setPixel (mkDisplay 10 10) 3 3 true 0) 3 3 false 100).pixels 3 3) 200
      = 0.015625 := by
  constructor
  · intro d p now h1 h2
    unfold calculateBrightness
    simp only [fadeOutBrightness]
    rw [if_pos h1]
    by_cases hs : p.state = false
    · rw [if_pos hs, if_pos h2]
    · rw [if_neg hs, if_pos h2]
  · norm_num [setPixel, mkDisplay, inBounds, CRT_FADE_IN_MS, CRT_FADE_OUT_MS,
      calculateBrightness, fadeInBrightness, fadeOutBrightness]

/-- Witness for C3 at the spec's scenario cell (ON at t=0, OFF at t=100,
evaluated at t=200 on the 10×10 / 50 ms / 200 ms display). -/
theorem calculateBrightness_fadeOut_window_witness :
    0 < (((setPixel (setPixel (mkDisplay 10 10) 3 3 true 0) 3 3 false 100).pixels 3 3)).offTimestamp ∧
    (200 : ℚ) - (((setPixel (setPixel (mkDisplay 10 10) 3 3 true 0) 3 3 false 100).pixels 3 3)).offTimestamp
      < (mkDisplay 10 10).fadeOutTime ∧
    calculateBrightness (mkDisplay 10 10)
        ((setPixel (setPixel (mkDisplay 10 10) 3 3 true 0) 3 3 false 100).pixels 3 3) 200
      = min 1 (max
          (fadeInBrightness (mkDisplay 10 10)
            ((setPixel (setPixel (mkDisplay 10 10) 3 3 true 0) 3 3 false 100).pixels 3 3) 200)
          ((1 - (200 - (((setPixel (setPixel (mkDisplay 10 10) 3 3 true 0) 3 3 false 100).pixels 3 3)).offTimestamp)
              / (mkDisplay 10 10).fadeOutTime) ^ 6)) := by
  have hcell : (setPixel (setPixel (mkDisplay 10 10) 3 3 true 0) 3 3 false 100).pixels 3 3
      = { state := false, onTimestamp := 0, offTimestamp := 100 } := by
    norm_num [setPixel, mkDisplay, inBounds]
  refine ⟨by rw [hcell]; norm_num, by rw [hcell]; norm_num [mkDisplay, CRT_FADE_OUT_MS], ?_⟩
  exact calculateBrightness_fadeOut_window.1 (mkDisplay 10 10)
    ((setPixel (setPixel (mkDisplay 10 10) 3 3 true 0) 3 3 false 100).pixels 3 3) 200
    (by rw [hcell]; norm_num) (by rw [hcell]; norm_num [mkDisplay, CRT_FADE_OUT_MS])

/-- Counterexample to C2 as stated: `setPixel(3,3,true)` at t=0 stores
`onTimestamp = 0`, and `calculateBrightness` requires `onTimestamp > 0`
(the sentinel 0 means "never turned on"), so at t=25 the brightness is 0,
not the claimed 0.5. -/
theorem fadeIn_at_time_zero_cex :
    ((setPixel (mkDisplay 10 10) 3 3 true 0).pixels 3 3).state = true ∧
    ((setPixel (mkDisplay 10 10) 3 3 true 0).pixels 3 3).onTimestamp = 0 ∧
    calculateBrightness (mkDisplay 10 10)
      ((setPixel (mkDisplay 10 10) 3 3 true 0).pixels 3 3) 25 = 0 ∧
    calculateBrightness (mkDisplay 10 10)
      ((setPixel (mkDisplay 10 10) 3 3 true 0).pixels 3 3) 25 ≠ 1/2 := by
  have hcell : (setPixel (mkDisplay 10 10) 3 3 true 0).pixels 3 3
      = { state := true, onTimestamp := 0, offTimestamp := 0 } := by
    norm_num [setPixel, mkDisplay, inBounds]
  rw [hcell]
  refine ⟨rfl, rfl, ?_, ?_⟩ <;>
    norm_num [calculateBrightness, fadeInBrightness, fadeOutBrightness]

/-- C2 amended: for a pixel currently ON whose `onTimestamp = t0` is strictly
positive (the code treats `onTimestamp ≤ 0` as the never-turned-on sentinel),
with `t0 ≤ now`, no live fade-out overriding it, and a positive fade-in
duration, `calculateBrightness` returns the linear ramp
`min(1, (now - t0)/fadeInDuration)`. -/
theorem calculateBrightness_fadeIn_linear (d : PixelDisplay) (p : Cell) (now : ℚ)
    (hs : p.state = true) (hon : 0 < p.onTimestamp) (hord : p.onTimestamp ≤ now)
    (hfade : p.offTimestamp ≤ 0 ∨ d.fadeOutTime ≤ now - p.offTimestamp)
    (hfi : 0 < d.fadeInTime) :
    calculateBrightness d p now = min 1 ((now - p.onTimestamp) / d.fadeInTime) := by
  have hout : fadeOutBrightness d p now = 0 := by
    rcases hfade with h | h
    · exact fadeOutBrightness_nonpos d p now h
    · exact fadeOutBrightness_stale d p now h
  unfold calculateBrightness
  rw [hout]
  simp only [fadeInBrightness]
  rw [if_pos hon, if_pos hs]
  by_cases hlt : now - p.onTimestamp < d.fadeInTime
  · rw [if_pos hlt]
    have h0 : 0 ≤ (now - p.onTimestamp) / d.fadeInTime :=
      div_nonneg (by linarith) (le_of_lt hfi)
    rw [max_eq_left h0]
  · rw [if_neg hlt]
    have h1 : 1 ≤ (now - p.onTimestamp) / d.fadeInTime := by
      rw [le_div_iff₀ hfi]
      push_neg at hlt
      linarith
    rw [max_eq_left (by norm_num : (0:ℚ) ≤ 1), min_self, eq_comm]
    exact min_eq_left h1

/-- Witness for C2's amended claim at the spec scenario shifted to a positive
onset time: `setPixel(3,3,true)` at t=10 gives brightness 1/2 at t=35 and
1 at t=70 on the 10×10 / 50 ms fade-in display. -/
theorem calculateBrightness_fadeIn_linear_witness :
    ((setPixel (mkDisplay 10 10) 3 3 true 10).pixels 3 3).state = true ∧
    0 < ((setPixel (mkDisplay 10 10) 3 3 true 10).pixels 3 3).onTimestamp ∧
    calculateBrightness (mkDisplay 10 10)
        ((setPixel (mkDisplay 10 10) 3 3 true 10).pixels 3 3) 35
      = min 1 ((35 - ((setPixel (mkDisplay 10 10) 3 3 true 10).pixels 3 3).onTimestamp)
          / (mkDisplay 10 10).fadeInTime) ∧
    calculateBrightness (mkDisplay 10 10)
        ((setPixel (mkDisplay 10 10) 3 3 true 10).pixels 3 3) 35 = 1/2 ∧
    calculateBrightness (mkDisplay 10 10)
        ((setPixel (mkDisplay 10 10) 3 3 true 10).pixels 3 3) 70 = 1 := by
  have hcell : (setPixel (mkDisplay 10 10) 3 3 true 10).pixels 3 3
      = { state := true, onTimestamp := 10, offTimestamp := 0 } := by
    norm_num [setPixel, mkDisplay, inBounds]
  refine ⟨by rw [hcell], by rw [hcell]; norm_num, ?_, ?_, ?_⟩
  · exact calculateBrightness_fadeIn_linear (mkDisplay 10 10)
      ((setPixel (mkDisplay 10 10) 3 3 true 10).pixels 3 3) 35
      (by rw [hcell]) (by rw [hcell]; norm_num) (by rw [hcell]; norm_num)
      (Or.inl (by rw [hcell])) (by norm_num [mkDisplay, CRT_FADE_IN_MS])
  · rw [hcell]
    norm_num [calculateBrightness, fadeInBrightness, fadeOutBrightness, mkDisplay,
      CRT_FADE_IN_MS, CRT_FADE_OUT_MS]
  · rw [hcell]
    norm_num [calculateBrightness, fadeInBrightness, fadeOutBrightness, mkDisplay,
      CRT_FADE_IN_MS, CRT_FADE_OUT_MS]

/-- Counterexample to C1 as stated: `clearRect` over a rectangle containing
an already-OFF cell stamps that cell with `offTimestamp = now` (no
backdating), so `calculateBrightness` at `now` is 1 — a full re-glow — not
the 0 the claim requires.  Input: fresh 10×10 display, `clearRect(0,0,10,10)`
with no preserve predicate at t=1000, evaluated at cell (0,0). -/
theorem clearRect_reglow_cex :
    ((mkDisplay 10 10).pixels 0 0).state = false ∧
    calculateBrightness (mkDisplay 10 10)
      ((clearRect (mkDisplay 10 10) 0 0 10 10 (fun _ _ => false) 1000).pixels 0 0) 1000 = 1 ∧
    calculateBrightness (mkDisplay 10 10)
      ((clearRect (mkDisplay 10 10) 0 0 10 10 (fun _ _ => false) 1000).pixels 0 0) 1000 ≠ 0 := by
  have hcell : (clearRect (mkDisplay 10 10) 0 0 10 10 (fun _ _ => false) 1000).pixels 0 0
      = { state := false, onTimestamp := 0, offTimestamp := 1000 } := by
    norm_num [clearRect, insideClearRect, mkDisplay]
  rw [hcell]
  refine ⟨rfl, ?_, ?_⟩ <;>
    norm_num [calculateBrightness, fadeInBrightness, fadeOutBrightness, mkDisplay,
      CRT_FADE_OUT_MS]

/-- C1 amended: `clearRect` forces every iterated, non-preserved cell to
`state = false` with `offTimestamp = now` unconditionally.  For a cell that
was ON this coincides with what `clear()` does to it; for a cell that was
already OFF there is no backdating, and its brightness at `now` is 1
(a re-glow), not 0. -/
theorem clearRect_semantics (d : PixelDisplay) (x y w h : ℚ)
    (preserve : ℤ → ℤ → Bool) (now : ℚ) (px py : ℤ)
    (hin : insideClearRect d x y w h px py) (hp : preserve px py = false) :
    (clearRect d x y w h preserve now).pixels py px
      = { d.pixels py px with state := false, offTimestamp := now } ∧
    ((d.pixels py px).state = true →
      (clearRect d x y w h preserve now).pixels py px = (clear d now).pixels py px) ∧
    ((d.pixels py px).state = false → 0 < now → 0 < d.fadeOutTime →
      calculateBrightness d ((clearRect d x y w h preserve now).pixels py px) now = 1) := by
  have hbounds : inBounds d px py := by
    obtain ⟨h1, h2, h3, h4⟩ := hin
    exact ⟨le_trans (le_max_left 0 _) h1, lt_of_lt_of_le h2 (min_le_left _ _),
           le_trans (le_max_left 0 _) h3, lt_of_lt_of_le h4 (min_le_left _ _)⟩
  have hcell : (clearRect d x y w h preserve now).pixels py px
      = { d.pixels py px with state := false, offTimestamp := now } := by
    simp only [clearRect]
    rw [if_pos ⟨hin, hp⟩]
  refine ⟨hcell, ?_, ?_⟩
  · intro hs
    rw [hcell]
    simp only [clear]
    rw [if_pos hbounds, if_pos hs]
  · intro hs hnow hfot
    rw [hcell]
    unfold calculateBrightness
    rw [fadeInBrightness_off _ _ _ rfl]
    have hout : fadeOutBrightness d
        { d.pixels py px with state := false, offTimestamp := now } now = 1 := by
      simp only [fadeOutBrightness]
      simp [hnow, hfot, sub_self]
    rw [hout]
    rw [max_eq_right (by norm_num : (0:ℚ) ≤ 1), min_self]

/-- Witness for C1's amended claim: display with cell (3,3) turned ON at
t=10, `clearRect(0,0,10,10)` with no preserve predicate at t=20, checked at
cell (3,3). -/
theorem clearRect_semantics_witness :
    insideClearRect (setPixel (mkDisplay 10 10) 3 3 true 10) 0 0 10 10 3 3 ∧
    ((fun _ _ => false : ℤ → ℤ → Bool) 3 3 = false) ∧
    ((clearRect (setPixel (mkDisplay 10 10) 3 3 true 10) 0 0 10 10 (fun _ _ => false) 20).pixels 3 3
      = { (setPixel (mkDisplay 10 10) 3 3 true 10).pixels 3 3 with
            state := false, offTimestamp := 20 } ∧
     (((setPixel (mkDisplay 10 10) 3 3 true 10).pixels 3 3).state = true →
       (clearRect (setPixel (mkDisplay 10 10) 3 3 true 10) 0 0 10 10 (fun _ _ => false) 20).pixels 3 3
         = (clear (setPixel (mkDisplay 10 10) 3 3 true 10) 20).pixels 3 3) ∧
     (((setPixel (mkDisplay 10 10) 3 3 true 10).pixels 3 3).state = false →
       0 < (20:ℚ) → 0 < (setPixel (mkDisplay 10 10) 3 3 true 10).fadeOutTime →
       calculateBrightness (setPixel (mkDisplay 10 10) 3 3 true 10)
         ((clearRect (setPixel (mkDisplay 10 10) 3 3 true 10) 0 0 10 10 (fun _ _ => false) 20).pixels 3 3)
         20 = 1)) := by
  refine ⟨?_, rfl, ?_⟩
  · norm_num [insideClearRect, setPixel, mkDisplay, inBounds]
  · exact clearRect_semantics (setPixel (mkDisplay 10 10) 3 3 true 10) 0 0 10 10
      (fun _ _ => false) 20 3 3
      (by norm_num [insideClearRect, setPixel, mkDisplay, inBounds]) rfl

/-- `DEGAUSS_COOLDOWN_MS` from constants.js. -/
def DEGAUSS_COOLDOWN_MS : ℝ := 30000

/-- `DEGAUSS_COOLDOWN_MIN_MS` from constants.js. -/
def DEGAUSS_COOLDOWN_MIN_MS : ℝ := 1000

/-- `DEGAUSS_DURATION_BASE_MS` from constants.js. -/
def DEGAUSS_DURATION_BASE_MS : ℝ := 2000

/-- Degauss controller state (pixel-display.js constructor lines 59–63):
`lastDegaussEndTime` (0 = never), `degaussStartTime` (0 = not running),
`degaussDuration` and `degaussStrength` of the current run. -/
structure DegaussState where
  lastDegaussEndTime : ℝ
  degaussStartTime : ℝ
  degaussDuration : ℝ
  degaussStrength : ℝ

/-- The cooldown-scaled strength computed by `PixelDisplay.degauss`
(pixel-display.js lines 182–186):
`Math.pow(Math.max(0, Math.min(1, (elapsed - cooldownMin)/(cooldown - cooldownMin))), 1.5)`. -/
noncomputable def degaussStrengthOf (elapsed : ℝ) : ℝ :=
  (max 0 (min 1 ((elapsed - DEGAUSS_COOLDOWN_MIN_MS)
    / (DEGAUSS_COOLDOWN_MS - DEGAUSS_COOLDOWN_MIN_MS)))) ^ (1.5 : ℝ)

/-- `PixelDisplay.degauss()` (pixel-display.js lines 170–197), with `now`
the value of `this.getTime()`.  No stacking: while a run is active
(`degaussStartTime ≠ 0` and `now - degaussStartTime < degaussDuration`) the
trigger returns with the state untouched.  Otherwise the cooldown strength
is computed (a never-degaussed display counts as fully cooled); a strength
below 0.01 only advances `lastDegaussEndTime`, and otherwise a new run
starts at `now`. -/
noncomputable def degauss (s : DegaussState) (now : ℝ) : DegaussState :=
  if s.degaussStartTime ≠ 0 ∧ now - s.degaussStartTime < s.degaussDuration then s
  else
    let elapsed := if s.lastDegaussEndTime = 0 then DEGAUSS_COOLDOWN_MS
      else now - s.lastDegaussEndTime
    let strength := degaussStrengthOf elapsed
    if strength < 0.01 then { s with lastDegaussEndTime := now }
    else { s with degaussStartTime := now
                  degaussDuration := DEGAUSS_DURATION_BASE_MS * strength
                  degaussStrength := strength }

/-- C5: if an active run holds `degaussStartTime = t1` (active means the
stored start time is nonzero) with duration `d`, a second trigger at `t2`
with `t2 - t1 < d` hits the no-stacking early return and leaves the whole
degauss state — start time, duration, strength and `lastDegaussEndTime` —
unchanged. -/
theorem degauss_no_stacking (s : DegaussState) (t1 t2 d : ℝ)
    (hstart : s.degaussStartTime = t1) (h0 : t1 ≠ 0)
    (hdur : s.degaussDuration = d) (hwin : t2 - t1 < d) :
    degauss s t2 = s := by
  unfold degauss
  rw [if_pos]
  exact ⟨by rw [hstart]; exact h0, by rw [hstart, hdur]; exact hwin⟩

/-- Witness for C5: a run started at t=5 with duration 2000; a second
trigger at t=6 is ignored. -/
theorem degauss_no_stacking_witness :
    (DegaussState.mk 0 5 2000 1).degaussStartTime = 5 ∧ (5:ℝ) ≠ 0 ∧
    (DegaussState.mk 0 5 2000 1).degaussDuration = 2000 ∧ (6:ℝ) - 5 < 2000 ∧
    degauss (DegaussState.mk 0 5 2000 1) 6 = DegaussState.mk 0 5 2000 1 := by
  refine ⟨rfl, by norm_num, rfl, by norm_num, ?_⟩
  exact degauss_no_stacking (DegaussState.mk 0 5 2000 1) 5 6 2000 rfl (by norm_num)
    rfl (by norm_num)

/-- C6: the cooldown strength is monotone non-decreasing in the elapsed time
since `lastDegaussEndTime` (stated for `e1 < e2`, both past the minimum
cooldown as in the claim), and saturates at exactly 1 once the elapsed time
reaches the full 30 s cooldown window. -/
theorem degaussStrength_monotone (e1 e2 : ℝ)
    (_hmin : DEGAUSS_COOLDOWN_MIN_MS ≤ e1) (h12 : e1 < e2) :
    degaussStrengthOf e1 ≤ degaussStrengthOf e2 ∧
    (∀ e : ℝ, DEGAUSS_COOLDOWN_MS ≤ e → degaussStrengthOf e = 1) := by
  constructor
  · unfold degaussStrengthOf
    apply Real.rpow_le_rpow (le_max_left 0 _) _ (by norm_num)
    apply max_le_max le_rfl
    apply min_le_min le_rfl
    unfold DEGAUSS_COOLDOWN_MS DEGAUSS_COOLDOWN_MIN_MS
    apply div_le_div_of_nonneg_right (by linarith) (by norm_num)
  · intro e he
    unfold degaussStrengthOf at *
    unfold DEGAUSS_COOLDOWN_MS DEGAUSS_COOLDOWN_MIN_MS at *
    have h1 : (1:ℝ) ≤ (e - 1000) / (30000 - 1000) := by
      rw [le_div_iff₀ (by norm_num : (0:ℝ) < 30000 - 1000)]
      linarith
    rw [min_eq_left h1, max_eq_right (by norm_num : (0:ℝ) ≤ 1), Real.one_rpow]

/-- Witness for C6 at `e1 = 1000` (the minimum cooldown) and `e2 = 30000`
(the full window, where strength is 1). -/
theorem degaussStrength_monotone_witness :
    DEGAUSS_COOLDOWN_MIN_MS ≤ (1000:ℝ) ∧ (1000:ℝ) < 30000 ∧
    (degaussStrengthOf 1000 ≤ degaussStrengthOf 30000 ∧
     (∀ e : ℝ, DEGAUSS_COOLDOWN_MS ≤ e → degaussStrengthOf e = 1)) := by
  refine ⟨by norm_num [DEGAUSS_COOLDOWN_MIN_MS], by norm_num, ?_⟩
  exact degaussStrength_monotone 1000 30000 (by norm_num [DEGAUSS_COOLDOWN_MIN_MS])
    (by norm_num)

/-- The game states of pong.js (`this.gameState`, pong.js line 217). -/
inductive GameState where
  | menu
  | countdown
  | playing
  | paused
  | gameOver
deriving DecidableEq, Repr

/-- A scoring side (`this.winner`, pong.js line 221: 'left' or 'right'). -/
inductive Side where
  | left
  | right
deriving DecidableEq, Repr

/-- `this.score` of pong.js. -/
structure Score where
  left : ℕ
  right : ℕ
deriving DecidableEq, Repr

/-- The ball fields touched by `checkGameEnd` (velocity is zeroed on game
over); position is carried along unchanged. -/
structure Ball where
  x : ℚ
  y : ℚ
  vx : ℚ
  vy : ℚ
deriving DecidableEq, Repr

/-- The slice of Pong state read or written by `Pong.checkGameEnd`. -/
structure PongState where
  score : Score
  gameState : GameState
  winner : Option Side
  gameOverStartTime : ℚ
  ball : Ball
deriving DecidableEq, Repr

/-- `Pong.checkGameEnd()` (pong.js lines 1100–1114), with `now` the value of
`performance.now()`: `if (left >= 5) … else if (right >= 5) …`, each branch
setting winner, `gameState = 'GAME_OVER'`, `gameOverStartTime`, and zeroing
the ball velocity. -/
def checkGameEnd (s : PongState) (now : ℚ) : PongState :=
  if 5 ≤ s.score.left then
    { s with winner := some Side.left
             gameState := GameState.gameOver
             gameOverStartTime := now
             ball := { s.ball with vx := 0, vy := 0 } }
  else if 5 ≤ s.score.right then
    { s with winner := some Side.right
             gameState := GameState.gameOver
             gameOverStartTime := now
             ball := { s.ball with vx := 0, vy := 0 } }
  else s

/-- Counterexample to C9 as stated: with both scores at the threshold
(left = right = 5) the `else if` never runs, so the winner is 'left', not
'right', even though `score.right >= 5` — the two sides are not checked
independently. -/
theorem checkGameEnd_both_cex :
    5 ≤ (PongState.mk (Score.mk 5 5) GameState.playing none 0 (Ball.mk 1 2 3 4)).score.right ∧
    (checkGameEnd (PongState.mk (Score.mk 5 5) GameState.playing none 0 (Ball.mk 1 2 3 4)) 0).winner
      ≠ some Side.right := by
  refine ⟨by norm_num, ?_⟩
  simp only [checkGameEnd]
  norm_num
  decide

/-- C9 amended: reaching the win threshold 5 transitions the game to
GAME_OVER; the winner is 'left' whenever `score.left ≥ 5` (the left branch
is checked first), and 'right' when `score.right ≥ 5` and `score.left < 5`. -/
theorem checkGameEnd_threshold (s : PongState) (now : ℚ) :
    (5 ≤ s.score.left →
      (checkGameEnd s now).gameState = GameState.gameOver ∧
      (checkGameEnd s now).winner = some Side.left) ∧
    (s.score.left < 5 → 5 ≤ s.score.right →
      (checkGameEnd s now).gameState = GameState.gameOver ∧
      (checkGameEnd s now).winner = some Side.right) := by
  constructor
  · intro hl
    unfold checkGameEnd
    rw [if_pos hl]
    exact ⟨rfl, rfl⟩
  · intro hl hr
    unfold checkGameEnd
    rw [if_neg (not_le.mpr hl), if_pos hr]
    exact ⟨rfl, rfl⟩

/-- Witness for C9's amended claim at score 3:5 (right side wins) and at
score 5:0 (left side wins), both evaluated through `checkGameEnd`. -/
theorem checkGameEnd_threshold_witness :
    (PongState.mk (Score.mk 3 5) GameState.playing none 0 (Ball.mk 1 2 3 4)).score.left < 5 ∧
    5 ≤ (PongState.mk (Score.mk 3 5) GameState.playing none 0 (Ball.mk 1 2 3 4)).score.right ∧
    ((checkGameEnd (PongState.mk (Score.mk 3 5) GameState.playing none 0 (Ball.mk 1 2 3 4)) 7).gameState
        = GameState.gameOver ∧
     (checkGameEnd (PongState.mk (Score.mk 3 5) GameState.playing none 0 (Ball.mk 1 2 3 4)) 7).winner
        = some Side.right) := by
  refine ⟨by norm_num, by norm_num, ?_⟩
  exact (checkGameEnd_threshold
    (PongState.mk (Score.mk 3 5) GameState.playing none 0 (Ball.mk 1 2 3 4)) 7).2
    (by norm_num) (by norm_num)

/-- `PixelDisplay.drawPattern(pattern, x, y, scale)` (pixel-display.js lines
203–222), with `now` the `this.getTime()` value threaded to the `setPixel`
calls.  `s = Math.max(1, scale)`; empty patterns draw nothing; the output is
`outW × outH = max(1, ceil(cols*s)) × max(1, ceil(rows*s))`, sampled
nearest-neighbor at `(min(cols-1, floor(ox/s)), min(rows-1, floor(oy/s)))`;
entries equal to 1 set the pixel at `(floor(x+ox), floor(y+oy))`.  Since
`s ≥ 1` and the output coordinates are naturals, the `floor(o/s)` indices
are nonneg, so `Int.toNat` is exact. -/
def drawPattern (d : PixelDisplay) (pattern : List (List ℕ)) (x y : ℚ)
    (scale : ℚ) (now : ℚ) : PixelDisplay :=
  let s := max 1 scale
  let rows := pattern.length
  if rows = 0 then d else
  let cols := (pattern.headD []).length
  if cols = 0 then d else
  let outW := (max 1 ⌈(cols : ℚ) * s⌉).toNat
  let outH := (max 1 ⌈(rows : ℚ) * s⌉).toNat
  (List.range outH).foldl (fun dRow oy =>
    let srcRow := min (rows - 1) (⌊(oy : ℚ) / s⌋).toNat
    let r := pattern.getD srcRow []
    (List.range outW).foldl (fun dCur ox =>
      let srcCol := min (cols - 1) (⌊(ox : ℚ) / s⌋).toNat
      if r.getD srcCol 0 = 1 then
        setPixel dCur ⌊x + (ox : ℚ)⌋ ⌊y + (oy : ℚ)⌋ true now
      else dCur) dRow) d

/-- C10: `drawPattern` clamps the scale to a minimum of 1
(`const s = Math.max(1, scale)`), so every call with `scale ≤ 1` — including
fractional scales below 1 — draws exactly what a call with scale 1 draws;
the blit never shrinks a pattern below its natural size. -/
theorem drawPattern_scale_clamp (d : PixelDisplay) (pattern : List (List ℕ))
    (x y : ℚ) (scale : ℚ) (now : ℚ) (hs : scale ≤ 1) :
    drawPattern d pattern x y scale now = drawPattern d pattern x y 1 now := by
  unfold drawPattern
  rw [max_eq_left hs, max_self]

/-- Witness for C10: drawing a 1×1 pattern at scale 1/2 equals drawing it at
scale 1 on a fresh 10×10 display. -/
theorem drawPattern_scale_clamp_witness :
    (1:ℚ)/2 ≤ 1 ∧
    drawPattern (mkDisplay 10 10) [[1]] 0 0 (1/2) 5
      = drawPattern (mkDisplay 10 10) [[1]] 0 0 1 5 := by
  refine ⟨by norm_num, ?_⟩
  exact drawPattern_scale_clamp (mkDisplay 10 10) [[1]] 0 0 (1/2) 5 (by norm_num)
